import Mathlib

/-!
Shallow embedding of the advanced-order engine of the `ai-trading-v2` backend:
the order data model (`backend/services/advanced_orders_service.py`) and the
price-driven monitoring logic (`backend/services/order_monitoring_service.py`),
together with the iceberg creation endpoint of `backend/api/advanced_orders.py`.

Python floats are modelled as exact rationals (`ℚ`); Python `Optional[float]`
fields become `Option ℚ`, and Python truthiness of such a field (`if x:`) is
`some v` with `v ≠ 0`.  Sides and order kinds are the literal strings the
source compares against.  Timestamps (`created_at`, `updated_at`,
`executed_at`) are set from the wall clock in the source and never read by any
monitoring decision, so they are omitted from the state.
-/

namespace AiTrading

/-- Order status, from the `OrderStatus` enum of `advanced_orders_service.py`. -/
inductive OrderStatus where
  | PENDING
  | ACTIVE
  | PARTIALLY_FILLED
  | FILLED
  | CANCELLED
  | REJECTED
deriving DecidableEq, Repr

/-- Model of Python `str.upper()` on the ASCII strings the engine uses (symbols
and sides), written over the character list so that it evaluates by `decide`. -/
def pyUpper (s : String) : String :=
  ⟨s.data.map Char.toUpper⟩

/-- Python truthiness of an `Optional[float]`: `None` and `0.0` are falsy. -/
def qTruthy : Option ℚ → Bool
  | some v => v ≠ 0
  | none => false

/-- Value of the Python expression `v or 0`: the stored value when truthy, else `0`. -/
def orZero : Option ℚ → ℚ
  | some v => if v ≠ 0 then v else 0
  | none => 0

/-- Boolean value of `p <= (v or inf)` (Python): vacuously true when `v` is falsy. -/
def leOrInf (p : ℚ) : Option ℚ → Bool
  | some v => if v ≠ 0 then decide (p ≤ v) else true
  | none => true

/-- Boolean value of `p >= (v or inf)` (Python): vacuously false when `v` is falsy. -/
def geOrInf (p : ℚ) : Option ℚ → Bool
  | some v => if v ≠ 0 then decide (p ≥ v) else false
  | none => false

/-- One leg of an OCO order (`OCOLeg` dataclass). -/
structure OCOLeg where
  order_type : String
  price : Option ℚ := none
  stop_price : Option ℚ := none
  limit_price : Option ℚ := none
  status : OrderStatus := .PENDING
deriving DecidableEq, Repr

/-- OCO (One-Cancels-Other) order (`OCOOrder` dataclass). -/
structure OCOOrder where
  symbol : String
  side : String
  quantity : ℚ
  order1 : OCOLeg
  order2 : OCOLeg
  status : OrderStatus := .PENDING
  filled_leg : Option Nat := none
deriving DecidableEq, Repr

/-- Leg specification as passed to `create_oco_order` (the `order1`/`order2` dicts). -/
structure OCOLegSpec where
  order_type : String
  price : Option ℚ := none
  stop_price : Option ℚ := none
  limit_price : Option ℚ := none
deriving DecidableEq, Repr

/-- The service-level factory `AdvancedOrdersService.create_oco_order`: builds both
legs with default status PENDING and the parent with status ACTIVE. -/
def create_oco_order (symbol side : String) (quantity : ℚ)
    (order1 order2 : OCOLegSpec) : OCOOrder :=
  { symbol := pyUpper symbol
    side := pyUpper side
    quantity := quantity
    order1 := { order_type := order1.order_type, price := order1.price,
                stop_price := order1.stop_price, limit_price := order1.limit_price }
    order2 := { order_type := order2.order_type, price := order2.price,
                stop_price := order2.stop_price, limit_price := order2.limit_price }
    status := .ACTIVE }

/-- Embedding of `OrderMonitoringService._check_leg_trigger`: whether an OCO leg fires at
`current_price` for the parent order's `side`. -/
def check_leg_trigger (leg : OCOLeg) (current_price : ℚ) (side : String) : Bool :=
  if leg.order_type = "LIMIT" then
    if side = "BUY" then leOrInf current_price leg.price
    else decide (current_price ≥ orZero leg.price)
  else if leg.order_type = "STOP_MARKET" then
    if side = "BUY" then geOrInf current_price leg.stop_price
    else decide (current_price ≤ orZero leg.stop_price)
  else if leg.order_type = "STOP_LIMIT" then
    if side = "BUY" then geOrInf current_price leg.stop_price
    else decide (current_price ≤ orZero leg.stop_price)
  else false

/-- Body of the per-order loop of `OrderMonitoringService._monitor_oco_orders`:
skip orders of another symbol or not ACTIVE; otherwise evaluate leg1 first and
leg2 second, and on a hit fill the winner, cancel the loser, record
`filled_leg` and mark the parent FILLED. -/
def monitor_oco_order (symbol : String) (current_price : ℚ) (o : OCOOrder) : OCOOrder :=
  if o.symbol ≠ symbol ∨ o.status ≠ .ACTIVE then o
  else
    let leg1_triggered := check_leg_trigger o.order1 current_price o.side
    let leg2_triggered := check_leg_trigger o.order2 current_price o.side
    if leg1_triggered then
      { o with order1 := { o.order1 with status := .FILLED }
               order2 := { o.order2 with status := .CANCELLED }
               filled_leg := some 1
               status := .FILLED }
    else if leg2_triggered then
      { o with order2 := { o.order2 with status := .FILLED }
               order1 := { o.order1 with status := .CANCELLED }
               filled_leg := some 2
               status := .FILLED }
    else o

/-- Iterated monitoring of a single OCO order over a sequence of
`update_market_price (symbol, price)` calls. -/
def run_oco (o : OCOOrder) (updates : List (String × ℚ)) : OCOOrder :=
  updates.foldl (fun s u => monitor_oco_order u.1 u.2 s) o

/-- Reachability invariant of an OCO order under monitoring: either no leg has
filled yet, or the order is FILLED with exactly one leg FILLED, the sibling
CANCELLED and `filled_leg` recording the winner. -/
def OCOInv (o : OCOOrder) : Prop :=
  (o.order1.status ≠ .FILLED ∧ o.order2.status ≠ .FILLED) ∨
  (o.status = .FILLED ∧
    ((o.order1.status = .FILLED ∧ o.order2.status = .CANCELLED ∧ o.filled_leg = some 1) ∨
     (o.order2.status = .FILLED ∧ o.order1.status = .CANCELLED ∧ o.filled_leg = some 2)))

lemma monitor_oco_order_inv (symbol : String) (p : ℚ) (o : OCOOrder)
    (h : OCOInv o) : OCOInv (monitor_oco_order symbol p o) := by
  unfold monitor_oco_order
  by_cases hskip : o.symbol ≠ symbol ∨ o.status ≠ .ACTIVE
  · simp [hskip, h]
  · simp only [hskip, if_false]
    by_cases h1 : check_leg_trigger o.order1 p o.side
    · simp [h1, OCOInv]
    · by_cases h2 : check_leg_trigger o.order2 p o.side
      · simp [h1, h2, OCOInv]
      · simp [h1, h2, h]

lemma run_oco_inv (o : OCOOrder) (updates : List (String × ℚ))
    (h : OCOInv o) : OCOInv (run_oco o updates) := by
  induction updates generalizing o with
  | nil => exact h
  | cons u us ih => exact ih _ (monitor_oco_order_inv u.1 u.2 o h)

/-- Concrete OCO order used to witness the exclusivity theorem: a BUY OCO with a
LIMIT leg at 95 and a STOP_MARKET leg at 110. -/
def c1WitnessOrder : OCOOrder :=
  create_oco_order "BTCUSDT" "BUY" 1
    { order_type := "LIMIT", price := some 95 }
    { order_type := "STOP_MARKET", stop_price := some 110 }

/-- Concrete price tape used to witness the exclusivity theorem. -/
def c1WitnessUpdates : List (String × ℚ) :=
  [("BTCUSDT", 100), ("BTCUSDT", 94), ("BTCUSDT", 120)]

/-- C1 (OCO exclusivity): for an OCO order none of whose legs has filled (as
produced by `create_oco_order`), after any sequence of price updates at most
one of the two legs is FILLED; and on any single further update in which a leg
newly becomes FILLED, the sibling leg becomes CANCELLED, `filled_leg` records
that leg's number, and the parent order's status becomes FILLED in the same
transition. -/
theorem oco_exclusivity (o : OCOOrder) (ups : List (String × ℚ)) (sym : String) (p : ℚ)
    (h1 : o.order1.status ≠ .FILLED) (h2 : o.order2.status ≠ .FILLED) :
    ¬((run_oco o ups).order1.status = .FILLED ∧ (run_oco o ups).order2.status = .FILLED)
    ∧ ((run_oco o ups).order1.status ≠ .FILLED →
        (monitor_oco_order sym p (run_oco o ups)).order1.status = .FILLED →
        (monitor_oco_order sym p (run_oco o ups)).order2.status = .CANCELLED ∧
        (monitor_oco_order sym p (run_oco o ups)).filled_leg = some 1 ∧
        (monitor_oco_order sym p (run_oco o ups)).status = .FILLED)
    ∧ ((run_oco o ups).order2.status ≠ .FILLED →
        (monitor_oco_order sym p (run_oco o ups)).order2.status = .FILLED →
        (monitor_oco_order sym p (run_oco o ups)).order1.status = .CANCELLED ∧
        (monitor_oco_order sym p (run_oco o ups)).filled_leg = some 2 ∧
        (monitor_oco_order sym p (run_oco o ups)).status = .FILLED) := by
  have hinv : OCOInv (run_oco o ups) := run_oco_inv o ups (Or.inl ⟨h1, h2⟩)
  set s := run_oco o ups with hs
  refine ⟨?_, ?_, ?_⟩
  · rcases hinv with ⟨ha, hb⟩ | ⟨_, ⟨_, hc, _⟩ | ⟨_, hc, _⟩⟩ <;> simp_all
  · intro hnot hfill
    unfold monitor_oco_order at hfill ⊢
    by_cases hskip : s.symbol ≠ sym ∨ s.status ≠ .ACTIVE
    · simp only [hskip, if_true] at hfill; exact absurd hfill hnot
    · simp only [hskip, if_false] at hfill ⊢
      by_cases hl1 : check_leg_trigger s.order1 p s.side
      · simp [hl1]
      · by_cases hl2 : check_leg_trigger s.order2 p s.side
        · simp only [hl1, if_false, hl2, if_true] at hfill; simp_all
        · simp only [hl1, hl2, if_false] at hfill; exact absurd hfill hnot
  · intro hnot hfill
    unfold monitor_oco_order at hfill ⊢
    by_cases hskip : s.symbol ≠ sym ∨ s.status ≠ .ACTIVE
    · simp only [hskip, if_true] at hfill; exact absurd hfill hnot
    · simp only [hskip, if_false] at hfill ⊢
      by_cases hl1 : check_leg_trigger s.order1 p s.side
      · simp only [hl1, if_true] at hfill; simp_all
      · by_cases hl2 : check_leg_trigger s.order2 p s.side
        · simp [hl1, hl2]
        · simp only [hl1, hl2, if_false] at hfill; exact absurd hfill hnot

/-- Witness for `oco_exclusivity` at a concrete order and price tape. -/
theorem oco_exclusivity_witness :
    ¬((run_oco c1WitnessOrder c1WitnessUpdates).order1.status = .FILLED ∧
      (run_oco c1WitnessOrder c1WitnessUpdates).order2.status = .FILLED)
    ∧ ((run_oco c1WitnessOrder c1WitnessUpdates).order1.status ≠ .FILLED →
        (monitor_oco_order "BTCUSDT" 90 (run_oco c1WitnessOrder c1WitnessUpdates)).order1.status = .FILLED →
        (monitor_oco_order "BTCUSDT" 90 (run_oco c1WitnessOrder c1WitnessUpdates)).order2.status = .CANCELLED ∧
        (monitor_oco_order "BTCUSDT" 90 (run_oco c1WitnessOrder c1WitnessUpdates)).filled_leg = some 1 ∧
        (monitor_oco_order "BTCUSDT" 90 (run_oco c1WitnessOrder c1WitnessUpdates)).status = .FILLED)
    ∧ ((run_oco c1WitnessOrder c1WitnessUpdates).order2.status ≠ .FILLED →
        (monitor_oco_order "BTCUSDT" 90 (run_oco c1WitnessOrder c1WitnessUpdates)).order2.status = .FILLED →
        (monitor_oco_order "BTCUSDT" 90 (run_oco c1WitnessOrder c1WitnessUpdates)).order1.status = .CANCELLED ∧
        (monitor_oco_order "BTCUSDT" 90 (run_oco c1WitnessOrder c1WitnessUpdates)).filled_leg = some 2 ∧
        (monitor_oco_order "BTCUSDT" 90 (run_oco c1WitnessOrder c1WitnessUpdates)).status = .FILLED) :=
  oco_exclusivity c1WitnessOrder c1WitnessUpdates "BTCUSDT" 90 (by decide) (by decide)

/-- Concrete OCO order whose two legs both trigger at price 95: a BUY OCO with
a LIMIT leg at 100 (fires when price ≤ 100) and a STOP_MARKET leg at 90
(fires when price ≥ 90). -/
def c5WitnessOrder : OCOOrder :=
  create_oco_order "BTCUSDT" "BUY" 1
    { order_type := "LIMIT", price := some 100 }
    { order_type := "STOP_MARKET", stop_price := some 90 }

/-- C5 (OCO tie-break determinism): on a single price update of an ACTIVE OCO
order where the trigger predicates of both legs hold, leg1 becomes FILLED,
leg2 becomes CANCELLED, `filled_leg = 1` and the parent is FILLED; leg2 never
wins when leg1's predicate also holds. -/
theorem oco_tie_break (o : OCOOrder) (sym : String) (p : ℚ)
    (hsym : o.symbol = sym) (hact : o.status = .ACTIVE)
    (h1 : check_leg_trigger o.order1 p o.side = true)
    (h2 : check_leg_trigger o.order2 p o.side = true) :
    (monitor_oco_order sym p o).order1.status = .FILLED ∧
    (monitor_oco_order sym p o).order2.status = .CANCELLED ∧
    (monitor_oco_order sym p o).filled_leg = some 1 ∧
    (monitor_oco_order sym p o).status = .FILLED := by
  unfold monitor_oco_order
  simp [hsym, hact, h1]

/-- Witness for `oco_tie_break`: at price 95 both legs of `c5WitnessOrder`
trigger and leg1 wins. -/
theorem oco_tie_break_witness :
    (monitor_oco_order "BTCUSDT" 95 c5WitnessOrder).order1.status = .FILLED ∧
    (monitor_oco_order "BTCUSDT" 95 c5WitnessOrder).order2.status = .CANCELLED ∧
    (monitor_oco_order "BTCUSDT" 95 c5WitnessOrder).filled_leg = some 1 ∧
    (monitor_oco_order "BTCUSDT" 95 c5WitnessOrder).status = .FILLED :=
  oco_tie_break c5WitnessOrder "BTCUSDT" 95 (by decide) (by decide) (by decide) (by decide)

/-- One leg of a bracket order (`BracketLeg` dataclass). -/
structure BracketLeg where
  order_type : String
  quantity : ℚ
  price : Option ℚ := none
  stop_price : Option ℚ := none
  limit_price : Option ℚ := none
  status : OrderStatus := .PENDING
deriving DecidableEq, Repr

/-- Bracket order with entry, stop loss and take profit (`BracketOrder` dataclass). -/
structure BracketOrder where
  symbol : String
  side : String
  quantity : ℚ
  entry_order : BracketLeg
  stop_loss_order : BracketLeg
  take_profit_order : BracketLeg
  risk_reward_ratio : ℚ
  entry_filled : Bool := false
  exit_filled : Bool := false
  status : OrderStatus := .PENDING
deriving DecidableEq, Repr

/-- Embedding of `AdvancedOrdersService.create_bracket_order`: builds the three legs (entry
from the request, stop as STOP_MARKET, profit as LIMIT), computes the
risk/reward ratio from the entry price (`0` when risk is zero), and activates
the parent. -/
def create_bracket_order (symbol side : String) (quantity : ℚ)
    (entry_order_type : String) (entry_price : Option ℚ)
    (stop_loss_stop_price take_profit_limit_price : ℚ) : BracketOrder :=
  let entry_price_v := entry_price.getD 0
  let risk := |entry_price_v - stop_loss_stop_price|
  let reward := |take_profit_limit_price - entry_price_v|
  { symbol := pyUpper symbol
    side := pyUpper side
    quantity := quantity
    entry_order := { order_type := entry_order_type, quantity := quantity,
                     price := entry_price }
    stop_loss_order := { order_type := "STOP_MARKET", quantity := quantity,
                         stop_price := some stop_loss_stop_price }
    take_profit_order := { order_type := "LIMIT", quantity := quantity,
                           limit_price := some take_profit_limit_price }
    risk_reward_ratio := if risk > 0 then reward / risk else 0
    status := .ACTIVE }

/-- Embedding of `OrderMonitoringService._check_entry_trigger`: a MARKET entry fires
unconditionally; a LIMIT entry fires on a favorable price. -/
def check_entry_trigger (entry : BracketLeg) (current_price : ℚ) (side : String) : Bool :=
  if entry.order_type = "MARKET" then true
  else if entry.order_type = "LIMIT" then
    if side = "BUY" then leOrInf current_price entry.price
    else decide (current_price ≥ orZero entry.price)
  else false

/-- Embedding of `OrderMonitoringService._check_stop_trigger`: adverse crossing of the stop
price. -/
def check_stop_trigger (stop_order : BracketLeg) (current_price : ℚ) (side : String) : Bool :=
  if side = "BUY" then decide (current_price ≤ orZero stop_order.stop_price)
  else geOrInf current_price stop_order.stop_price

/-- Embedding of `OrderMonitoringService._check_profit_trigger`: favorable crossing of the
limit price. -/
def check_profit_trigger (profit_order : BracketLeg) (current_price : ℚ) (side : String) : Bool :=
  if side = "BUY" then geOrInf current_price profit_order.limit_price
  else decide (current_price ≤ orZero profit_order.limit_price)

/-- Body of the per-order loop of `OrderMonitoringService._monitor_bracket_orders`:
skip other symbols and CANCELLED orders; while the entry is unfilled evaluate
only the entry trigger (filling it activates both exit legs); only when
`entry_filled` already held at the start of the update are the stop-loss and
take-profit triggers evaluated, stop-loss first. -/
def monitor_bracket_order (symbol : String) (current_price : ℚ) (o : BracketOrder) :
    BracketOrder :=
  if o.symbol ≠ symbol ∨ o.status = .CANCELLED then o
  else if !o.entry_filled then
    if check_entry_trigger o.entry_order current_price o.side then
      { o with entry_filled := true
               entry_order := { o.entry_order with status := .FILLED }
               stop_loss_order := { o.stop_loss_order with status := .ACTIVE }
               take_profit_order := { o.take_profit_order with status := .ACTIVE }
               status := .ACTIVE }
    else o
  else if o.entry_filled && !o.exit_filled then
    if check_stop_trigger o.stop_loss_order current_price o.side then
      { o with exit_filled := true
               stop_loss_order := { o.stop_loss_order with status := .FILLED }
               take_profit_order := { o.take_profit_order with status := .CANCELLED }
               status := .FILLED }
    else if check_profit_trigger o.take_profit_order current_price o.side then
      { o with exit_filled := true
               take_profit_order := { o.take_profit_order with status := .FILLED }
               stop_loss_order := { o.stop_loss_order with status := .CANCELLED }
               status := .FILLED }
    else o
  else o

/-- Concrete bracket order used to witness the phase-ordering theorem: BUY,
MARKET entry at 3000, stop 2900, take profit 3200 (the scenario of the spec). -/
def c2WitnessOrder : BracketOrder :=
  create_bracket_order "ETHUSDT" "BUY" 1 "MARKET" (some 3000) 2900 3200

/-- C2 (Bracket phase ordering): during a single price update, if the entry was
not yet filled when the update began, then no exit leg can end that update
FILLED (even when the entry fills and the price would also satisfy an exit
trigger), and `exit_filled` is unchanged; exit triggers are evaluated at the
earliest on the update after the one that filled the entry. -/
theorem bracket_phase_ordering (o : BracketOrder) (sym : String) (p : ℚ)
    (hentry : o.entry_filled = false)
    (hsl : o.stop_loss_order.status ≠ .FILLED)
    (htp : o.take_profit_order.status ≠ .FILLED) :
    (monitor_bracket_order sym p o).stop_loss_order.status ≠ .FILLED ∧
    (monitor_bracket_order sym p o).take_profit_order.status ≠ .FILLED ∧
    (monitor_bracket_order sym p o).exit_filled = o.exit_filled := by
  unfold monitor_bracket_order
  by_cases hskip : o.symbol ≠ sym ∨ o.status = .CANCELLED
  · simp [hskip, hsl, htp]
  · by_cases htrig : check_entry_trigger o.entry_order p o.side
    · simp [hskip, hentry, htrig]
    · simp [hskip, hentry, htrig, hsl, htp]

/-- Witness for `bracket_phase_ordering`: price 3250 on the very first update
fills the MARKET entry and would satisfy take profit, yet neither exit leg is
FILLED after that update. -/
theorem bracket_phase_ordering_witness :
    (monitor_bracket_order "ETHUSDT" 3250 c2WitnessOrder).stop_loss_order.status ≠ .FILLED ∧
    (monitor_bracket_order "ETHUSDT" 3250 c2WitnessOrder).take_profit_order.status ≠ .FILLED ∧
    (monitor_bracket_order "ETHUSDT" 3250 c2WitnessOrder).exit_filled = c2WitnessOrder.exit_filled :=
  bracket_phase_ordering c2WitnessOrder "ETHUSDT" 3250 (by decide) (by decide) (by decide)

/-- Trailing stop order (`TrailingStopOrder` dataclass). -/
structure TrailingStopOrder where
  symbol : String
  side : String
  quantity : ℚ
  trail_amount : Option ℚ := none
  trail_percent : Option ℚ := none
  activation_price : Option ℚ := none
  current_stop_price : ℚ := 0
  peak_price : ℚ := 0
  is_activated : Bool := false
  status : OrderStatus := .PENDING
deriving DecidableEq, Repr

/-- Embedding of `AdvancedOrdersService.create_trailing_stop_order`: seeds both `peak_price`
and `current_stop_price` with the reference price, and activates immediately
exactly when no activation price is given. -/
def create_trailing_stop_order (symbol side : String) (quantity : ℚ)
    (trail_amount trail_percent activation_price : Option ℚ)
    (current_price : ℚ) : TrailingStopOrder :=
  { symbol := pyUpper symbol
    side := pyUpper side
    quantity := quantity
    trail_amount := trail_amount
    trail_percent := trail_percent
    activation_price := activation_price
    peak_price := current_price
    current_stop_price := current_price
    is_activated := activation_price.isNone
    status := .ACTIVE }

/-- The BUY-side stop recomputation of `_monitor_trailing_stops`
(`if order.trail_percent: ... elif order.trail_amount: ...`); when neither
trail parameter is truthy the stop price is left unchanged. -/
def buy_stop_update (o : TrailingStopOrder) (price : ℚ) : ℚ :=
  if qTruthy o.trail_percent then price * (1 - orZero o.trail_percent / 100)
  else if qTruthy o.trail_amount then price - orZero o.trail_amount
  else o.current_stop_price

/-- The SELL-side stop recomputation of `_monitor_trailing_stops`. -/
def sell_stop_update (o : TrailingStopOrder) (price : ℚ) : ℚ :=
  if qTruthy o.trail_percent then price * (1 + orZero o.trail_percent / 100)
  else if qTruthy o.trail_amount then price + orZero o.trail_amount
  else o.current_stop_price

/-- Activation check of `_monitor_trailing_stops` (`if not order.is_activated
and order.activation_price:`): on a side-favorable crossing of a truthy
activation price, activate, seed the peak with the current price and compute
the initial stop from the trail parameter. -/
def ts_activation_step (current_price : ℚ) (o : TrailingStopOrder) : TrailingStopOrder :=
  if !o.is_activated && qTruthy o.activation_price then
    if o.side = "BUY" then
      if current_price ≥ orZero o.activation_price then
        { o with is_activated := true
                 peak_price := current_price
                 current_stop_price := buy_stop_update o current_price }
      else o
    else
      if current_price ≤ orZero o.activation_price then
        { o with is_activated := true
                 peak_price := current_price
                 current_stop_price := sell_stop_update o current_price }
      else o
  else o

/-- Ratchet of `_monitor_trailing_stops` (`if order.is_activated:` peak update):
on a favorable move past the stored peak, move the peak to the current price
and recompute the stop. -/
def ts_ratchet_step (current_price : ℚ) (o : TrailingStopOrder) : TrailingStopOrder :=
  if o.is_activated then
    if o.side = "BUY" then
      if current_price > o.peak_price then
        { o with peak_price := current_price
                 current_stop_price := buy_stop_update o current_price }
      else o
    else
      if current_price < o.peak_price then
        { o with peak_price := current_price
                 current_stop_price := sell_stop_update o current_price }
      else o
  else o

/-- Stop trigger of `_monitor_trailing_stops`: after the peak/stop update, an
adverse crossing of the current stop price marks the order FILLED (only
checked while activated, as in the source). -/
def ts_trigger_step (current_price : ℚ) (o : TrailingStopOrder) : TrailingStopOrder :=
  if o.is_activated then
    let stop_triggered :=
      if o.side = "BUY" then decide (current_price ≤ o.current_stop_price)
      else decide (current_price ≥ o.current_stop_price)
    if stop_triggered then { o with status := .FILLED } else o
  else o

/-- Body of the per-order loop of `OrderMonitoringService._monitor_trailing_stops`:
skip other symbols and non-ACTIVE orders, then run the activation check, the
peak/stop ratchet and the stop trigger in the source's order. -/
def monitor_trailing_stop_order (symbol : String) (current_price : ℚ)
    (o : TrailingStopOrder) : TrailingStopOrder :=
  if o.symbol ≠ symbol ∨ o.status ≠ .ACTIVE then o
  else ts_trigger_step current_price (ts_ratchet_step current_price
    (ts_activation_step current_price o))

/-- Iterated monitoring of a single trailing stop order over a sequence of
price updates. -/
def run_trailing_stop (o : TrailingStopOrder) (updates : List (String × ℚ)) :
    TrailingStopOrder :=
  updates.foldl (fun s u => monitor_trailing_stop_order u.1 u.2 s) o

/-- Trailing-stop order activated at creation (no activation price) that
refutes stop-price monotonicity as claimed: BUY, `trail_percent = 2`, created
at reference price 100, so `current_stop_price` is seeded to 100. -/
def c3CounterOrder : TrailingStopOrder :=
  create_trailing_stop_order "BTCUSDT" "BUY" 1 none (some 2) none 100

/-- Counterexample to C3 as stated: for the BUY order `c3CounterOrder`
(activated at creation, stop seeded to the reference price 100), the very
first favorable price update to 101 recomputes the stop to
`101 * 0.98 = 98.98`, which is strictly below the previous stop price 100 —
the stop price decreases for a BUY order, so it is not non-decreasing. -/
theorem trailing_stop_loosens_counterexample :
    (monitor_trailing_stop_order "BTCUSDT" 101 c3CounterOrder).current_stop_price <
      c3CounterOrder.current_stop_price ∧
    c3CounterOrder.side = "BUY" ∧ c3CounterOrder.is_activated = true := by
  have hc : c3CounterOrder =
      { symbol := "BTCUSDT", side := "BUY", quantity := 1,
        trail_amount := none, trail_percent := some 2, activation_price := none,
        current_stop_price := 100, peak_price := 100, is_activated := true,
        status := .ACTIVE } := by decide
  rw [hc]
  refine ⟨?_, rfl, rfl⟩
  norm_num [monitor_trailing_stop_order, ts_activation_step, ts_ratchet_step,
    ts_trigger_step, buy_stop_update, qTruthy, orZero]

/-- Trail relation between the stop price and the peak: the stop is at least
as tight as one recomputation of the configured trail (percent or fixed
amount) from the current peak — below the peak-derived target for BUY, above
it for SELL.  The target is expressed with the source's own recomputation
(`buy_stop_update` / `sell_stop_update` applied at the peak), so the relation
covers percent-trailed orders, amount-trailed orders, and the degenerate case
with neither parameter truthy (where recomputation leaves the stop unchanged
and the relation is trivial).  Orders whose activation happens through the
activation-price branch satisfy it from the moment of activation (activation
sets `current_stop_price` to exactly the target of the seeded peak); orders
activated at creation have the stop seeded to the reference price instead and
first satisfy it after one favorable recomputation. -/
def TrailInv (o : TrailingStopOrder) : Prop :=
  (o.side = "BUY" → o.current_stop_price ≤ buy_stop_update o o.peak_price) ∧
  (o.side ≠ "BUY" → o.current_stop_price ≥ sell_stop_update o o.peak_price)

/-- Bound on a truthy trail percent under which the stop-price recomputation
is monotone in the price: `|trail_percent| ≤ 100`, so that the factors
`1 - pct/100` (BUY) and `1 + pct/100` (SELL) are non-negative.  Amount-trailed
orders need no bound.  Vacuously true when `trail_percent` is not truthy. -/
def TrailPercentBounded (o : TrailingStopOrder) : Prop :=
  qTruthy o.trail_percent = true →
    -100 ≤ orZero o.trail_percent ∧ orZero o.trail_percent ≤ 100

lemma buy_stop_update_mono (o : TrailingStopOrder) (x y : ℚ) (hxy : x ≤ y)
    (hp : TrailPercentBounded o) :
    buy_stop_update o x ≤ buy_stop_update o y := by
  unfold buy_stop_update
  split_ifs with h1 h2
  · obtain ⟨hl, hr⟩ := hp h1
    have hk : (0:ℚ) ≤ 1 - orZero o.trail_percent / 100 := by linarith
    exact mul_le_mul_of_nonneg_right hxy hk
  · linarith
  · exact le_refl _

lemma sell_stop_update_mono (o : TrailingStopOrder) (x y : ℚ) (hxy : x ≤ y)
    (hp : TrailPercentBounded o) :
    sell_stop_update o x ≤ sell_stop_update o y := by
  unfold sell_stop_update
  split_ifs with h1 h2
  · obtain ⟨hl, hr⟩ := hp h1
    have hk : (0:ℚ) ≤ 1 + orZero o.trail_percent / 100 := by linarith
    exact mul_le_mul_of_nonneg_right hxy hk
  · linarith
  · exact le_refl _

lemma buy_stop_update_peak_stop (o : TrailingStopOrder) (p : ℚ) :
    buy_stop_update
      { o with peak_price := p, current_stop_price := buy_stop_update o p } p =
      buy_stop_update o p := by
  by_cases h1 : qTruthy o.trail_percent
  · simp [buy_stop_update, h1]
  · by_cases h2 : qTruthy o.trail_amount <;> simp [buy_stop_update, h1, h2]

lemma sell_stop_update_peak_stop (o : TrailingStopOrder) (p : ℚ) :
    sell_stop_update
      { o with peak_price := p, current_stop_price := sell_stop_update o p } p =
      sell_stop_update o p := by
  by_cases h1 : qTruthy o.trail_percent
  · simp [sell_stop_update, h1]
  · by_cases h2 : qTruthy o.trail_amount <;> simp [sell_stop_update, h1, h2]

lemma ts_activation_step_of_activated (p : ℚ) (o : TrailingStopOrder)
    (ha : o.is_activated = true) : ts_activation_step p o = o := by
  simp [ts_activation_step, ha]

lemma ts_trigger_step_fields (p : ℚ) (o : TrailingStopOrder) :
    (ts_trigger_step p o).current_stop_price = o.current_stop_price ∧
    (ts_trigger_step p o).peak_price = o.peak_price ∧
    (ts_trigger_step p o).is_activated = o.is_activated ∧
    (ts_trigger_step p o).side = o.side ∧
    (ts_trigger_step p o).trail_percent = o.trail_percent ∧
    (ts_trigger_step p o).trail_amount = o.trail_amount := by
  unfold ts_trigger_step
  by_cases h : o.is_activated <;> by_cases hb : o.side = "BUY" <;>
    simp [h, hb] <;> split <;> simp_all

lemma trailInv_of_fields {o o' : TrailingStopOrder}
    (hs : o'.current_stop_price = o.current_stop_price)
    (hpk : o'.peak_price = o.peak_price)
    (hd : o'.side = o.side)
    (ht : o'.trail_percent = o.trail_percent)
    (hta : o'.trail_amount = o.trail_amount)
    (hi : TrailInv o) : TrailInv o' := by
  unfold TrailInv at hi ⊢
  unfold buy_stop_update sell_stop_update at hi ⊢
  rw [hs, hpk, hd, ht, hta]
  exact hi

lemma ts_ratchet_step_mono (o : TrailingStopOrder) (p : ℚ)
    (hp : TrailPercentBounded o) (hi : TrailInv o) :
    TrailInv (ts_ratchet_step p o) ∧
    (ts_ratchet_step p o).is_activated = o.is_activated ∧
    (ts_ratchet_step p o).side = o.side ∧
    (ts_ratchet_step p o).trail_percent = o.trail_percent ∧
    (ts_ratchet_step p o).trail_amount = o.trail_amount ∧
    (o.side = "BUY" → o.current_stop_price ≤ (ts_ratchet_step p o).current_stop_price) ∧
    (o.side ≠ "BUY" → (ts_ratchet_step p o).current_stop_price ≤ o.current_stop_price) := by
  by_cases hact : o.is_activated
  · by_cases hb : o.side = "BUY"
    · by_cases hpk : p > o.peak_price
      · have heq : ts_ratchet_step p o =
            { o with peak_price := p, current_stop_price := buy_stop_update o p } := by
          simp [ts_ratchet_step, hact, hb, hpk]
        have hmono : o.current_stop_price ≤ buy_stop_update o p :=
          le_trans (hi.1 hb) (buy_stop_update_mono o o.peak_price p (le_of_lt hpk) hp)
        rw [heq]
        refine ⟨⟨fun _ => ?_, fun hcon => absurd hb hcon⟩, rfl, rfl, rfl, rfl,
          fun _ => ?_, fun hcon => absurd hb hcon⟩
        · show buy_stop_update o p ≤ buy_stop_update
            { o with peak_price := p, current_stop_price := buy_stop_update o p } p
          rw [buy_stop_update_peak_stop]
        · show o.current_stop_price ≤ buy_stop_update o p
          exact hmono
      · have heq : ts_ratchet_step p o = o := by
          simp [ts_ratchet_step, hact, hb, hpk]
        rw [heq]
        exact ⟨hi, rfl, rfl, rfl, rfl, fun _ => le_refl _, fun _ => le_refl _⟩
    · by_cases hpk : p < o.peak_price
      · have heq : ts_ratchet_step p o =
            { o with peak_price := p, current_stop_price := sell_stop_update o p } := by
          simp [ts_ratchet_step, hact, hb, hpk]
        have hmono : sell_stop_update o p ≤ o.current_stop_price :=
          le_trans (sell_stop_update_mono o p o.peak_price (le_of_lt hpk) hp) (hi.2 hb)
        rw [heq]
        refine ⟨⟨fun hcon => absurd hcon hb, fun _ => ?_⟩, rfl, rfl, rfl, rfl,
          fun hcon => absurd hcon hb, fun _ => ?_⟩
        · show sell_stop_update
            { o with peak_price := p, current_stop_price := sell_stop_update o p } p ≤
              sell_stop_update o p
          rw [sell_stop_update_peak_stop]
        · show sell_stop_update o p ≤ o.current_stop_price
          exact hmono
      · have heq : ts_ratchet_step p o = o := by
          simp [ts_ratchet_step, hact, hb, hpk]
        rw [heq]
        exact ⟨hi, rfl, rfl, rfl, rfl, fun _ => le_refl _, fun _ => le_refl _⟩
  · have heq : ts_ratchet_step p o = o := by
      simp [ts_ratchet_step, hact]
    rw [heq]
    exact ⟨hi, rfl, rfl, rfl, rfl, fun _ => le_refl _, fun _ => le_refl _⟩

lemma monitor_trailing_stop_order_mono (o : TrailingStopOrder)
    (sym : String) (p : ℚ)
    (hp : TrailPercentBounded o)
    (ha : o.is_activated = true) (hi : TrailInv o) :
    TrailInv (monitor_trailing_stop_order sym p o) ∧
    (monitor_trailing_stop_order sym p o).is_activated = true ∧
    (monitor_trailing_stop_order sym p o).trail_percent = o.trail_percent ∧
    (monitor_trailing_stop_order sym p o).trail_amount = o.trail_amount ∧
    (monitor_trailing_stop_order sym p o).side = o.side ∧
    (o.side = "BUY" →
      o.current_stop_price ≤ (monitor_trailing_stop_order sym p o).current_stop_price) ∧
    (o.side ≠ "BUY" →
      (monitor_trailing_stop_order sym p o).current_stop_price ≤ o.current_stop_price) := by
  unfold monitor_trailing_stop_order
  by_cases hskip : o.symbol ≠ sym ∨ o.status ≠ .ACTIVE
  · rw [if_pos hskip]
    exact ⟨hi, ha, rfl, rfl, rfl, fun _ => le_refl _, fun _ => le_refl _⟩
  · rw [if_neg hskip, ts_activation_step_of_activated p o ha]
    obtain ⟨hrinv, hract, hrside, hrtp, hrta, hrbuy, hrsell⟩ :=
      ts_ratchet_step_mono o p hp hi
    obtain ⟨hts, htp2, hta, htsd, http, htam⟩ :=
      ts_trigger_step_fields p (ts_ratchet_step p o)
    refine ⟨?_, ?_, ?_, ?_, ?_, fun hb => ?_, fun hb => ?_⟩
    · exact trailInv_of_fields hts htp2 htsd http htam hrinv
    · rw [hta, hract, ha]
    · rw [http, hrtp]
    · rw [htam, hrta]
    · rw [htsd, hrside]
    · rw [hts]; exact hrbuy hb
    · rw [hts]; exact hrsell hb

/-- C3 amended (trailing-stop monotonicity): for every trailing-stop order —
percent-trailed or amount-trailed — that is activated and whose stop already
stands in the trail relation to the peak (`TrailInv`, which holds from the
moment the activation-price branch activates an order, and from the first
favorable recomputation for an order activated at creation), any sequence of
price updates keeps the trail relation and never loosens the stop: for side
BUY `current_stop_price` is non-decreasing, otherwise (the source treats
every non-BUY side as SELL) non-increasing.  A truthy `trail_percent` must
satisfy `|trail_percent| ≤ 100` (`TrailPercentBounded`; creation accepts any
percent, and e.g. a BUY order with `trail_percent > 100` genuinely loosens
its stop); a trail amount needs no bound. -/
theorem trailing_stop_monotonic (o : TrailingStopOrder)
    (ups : List (String × ℚ))
    (hp : TrailPercentBounded o)
    (ha : o.is_activated = true) (hi : TrailInv o) :
    TrailInv (run_trailing_stop o ups) ∧
    (o.side = "BUY" →
      o.current_stop_price ≤ (run_trailing_stop o ups).current_stop_price) ∧
    (o.side ≠ "BUY" →
      (run_trailing_stop o ups).current_stop_price ≤ o.current_stop_price) := by
  induction ups generalizing o with
  | nil => exact ⟨hi, fun _ => le_refl _, fun _ => le_refl _⟩
  | cons u us ih =>
    obtain ⟨hinv1, hact1, htp1, hta1, hside1, hbuy1, hsell1⟩ :=
      monitor_trailing_stop_order_mono o u.1 u.2 hp ha hi
    have hp1 : TrailPercentBounded (monitor_trailing_stop_order u.1 u.2 o) := by
      unfold TrailPercentBounded
      rw [htp1]
      exact hp
    obtain ⟨hinv2, hbuy2, hsell2⟩ :=
      ih (monitor_trailing_stop_order u.1 u.2 o) hp1 hact1 hinv1
    refine ⟨hinv2, fun hb => ?_, fun hb => ?_⟩
    · exact le_trans (hbuy1 hb) (hbuy2 (by rw [hside1]; exact hb))
    · exact le_trans (hsell2 (by rw [hside1]; exact hb)) (hsell1 hb)

/-- Percent-trailed order in the trail relation used to witness the amended
monotonicity theorem: BUY, 2 percent trail, peak 100, stop 98. -/
def c3WitnessOrder : TrailingStopOrder :=
  { symbol := "BTCUSDT", side := "BUY", quantity := 1, trail_amount := none,
    trail_percent := some 2, activation_price := none,
    current_stop_price := 98, peak_price := 100, is_activated := true,
    status := .ACTIVE }

/-- Price tape used to witness the amended monotonicity theorem. -/
def c3WitnessUpdates : List (String × ℚ) :=
  [("BTCUSDT", 101), ("BTCUSDT", 99)]

/-- Witness for `trailing_stop_monotonic` at a concrete percent-trailed order
and price tape. -/
theorem trailing_stop_monotonic_witness :
    TrailInv (run_trailing_stop c3WitnessOrder c3WitnessUpdates) ∧
    (c3WitnessOrder.side = "BUY" →
      c3WitnessOrder.current_stop_price ≤
        (run_trailing_stop c3WitnessOrder c3WitnessUpdates).current_stop_price) ∧
    (c3WitnessOrder.side ≠ "BUY" →
      (run_trailing_stop c3WitnessOrder c3WitnessUpdates).current_stop_price ≤
        c3WitnessOrder.current_stop_price) :=
  trailing_stop_monotonic c3WitnessOrder c3WitnessUpdates
    (by intro h; norm_num [c3WitnessOrder, orZero])
    rfl
    (by constructor <;> intro hb <;>
      norm_num [c3WitnessOrder, buy_stop_update, qTruthy, orZero] at hb ⊢)

lemma buy_stop_update_percent (o : TrailingStopOrder) (pct p : ℚ)
    (hp : o.trail_percent = some pct) (h0 : pct ≠ 0) :
    buy_stop_update o p = p * (1 - pct / 100) := by
  simp [buy_stop_update, qTruthy, orZero, hp, h0]

lemma sell_stop_update_percent (o : TrailingStopOrder) (pct p : ℚ)
    (hp : o.trail_percent = some pct) (h0 : pct ≠ 0) :
    sell_stop_update o p = p * (1 + pct / 100) := by
  simp [sell_stop_update, qTruthy, orZero, hp, h0]

lemma ts_activation_step_amt (p : ℚ) (o : TrailingStopOrder)
    (htr : qTruthy o.trail_percent = true) :
    ts_activation_step p { o with trail_amount := none } =
      { ts_activation_step p o with trail_amount := none } := by
  unfold ts_activation_step
  split_ifs <;> simp_all [buy_stop_update, sell_stop_update]

lemma ts_ratchet_step_amt (p : ℚ) (o : TrailingStopOrder)
    (htr : qTruthy o.trail_percent = true) :
    ts_ratchet_step p { o with trail_amount := none } =
      { ts_ratchet_step p o with trail_amount := none } := by
  unfold ts_ratchet_step
  split_ifs <;> simp_all [buy_stop_update, sell_stop_update]

lemma ts_trigger_step_amt (p : ℚ) (o : TrailingStopOrder) :
    ts_trigger_step p { o with trail_amount := none } =
      { ts_trigger_step p o with trail_amount := none } := by
  unfold ts_trigger_step
  by_cases h : o.is_activated
  · by_cases hb : o.side = "BUY"
    · by_cases ht : p ≤ o.current_stop_price <;> simp [h, hb, ht]
    · by_cases ht : p ≥ o.current_stop_price <;> simp [h, hb, ht]
  · simp [h]

lemma monitor_trailing_stop_order_amt (sym : String) (p : ℚ) (o : TrailingStopOrder)
    (htr : qTruthy o.trail_percent = true) :
    monitor_trailing_stop_order sym p { o with trail_amount := none } =
      { monitor_trailing_stop_order sym p o with trail_amount := none } := by
  unfold monitor_trailing_stop_order
  by_cases hskip : o.symbol ≠ sym ∨ o.status ≠ .ACTIVE
  · rw [if_pos hskip, if_pos hskip]
  · rw [if_neg hskip, if_neg hskip, ts_activation_step_amt p o htr,
      ts_ratchet_step_amt, ts_trigger_step_amt]
    have h1 : (ts_activation_step p o).trail_percent = o.trail_percent := by
      unfold ts_activation_step; split_ifs <;> rfl
    rw [h1]; exact htr

/-- C10 (implicit trail-percent precedence): for a trailing-stop order carrying
both a non-zero `trail_percent` and a non-zero `trail_amount` (a configuration
creation accepts), monitoring behaves exactly as if `trail_amount` were absent
— the resulting stop price, peak price, status and activation flag coincide
with those of the same order with `trail_amount := none` — and every
stop-price computation uses the percent formula: the recomputation on a peak
update yields `p * (1 - pct/100)` for BUY and `p * (1 + pct/100)` otherwise,
and the initial computation at activation yields the same percent formula. -/
theorem trailing_percent_precedence (o : TrailingStopOrder) (pct amt a : ℚ)
    (sym : String) (p : ℚ)
    (hp : o.trail_percent = some pct) (h0 : pct ≠ 0)
    (hamt : o.trail_amount = some amt) (hamt0 : amt ≠ 0) :
    ((monitor_trailing_stop_order sym p o).current_stop_price =
      (monitor_trailing_stop_order sym p { o with trail_amount := none }).current_stop_price) ∧
    ((monitor_trailing_stop_order sym p o).peak_price =
      (monitor_trailing_stop_order sym p { o with trail_amount := none }).peak_price) ∧
    ((monitor_trailing_stop_order sym p o).status =
      (monitor_trailing_stop_order sym p { o with trail_amount := none }).status) ∧
    ((monitor_trailing_stop_order sym p o).is_activated =
      (monitor_trailing_stop_order sym p { o with trail_amount := none }).is_activated) ∧
    (o.symbol = sym → o.status = .ACTIVE → o.is_activated = true → o.side = "BUY" →
      o.peak_price < p →
      (monitor_trailing_stop_order sym p o).current_stop_price = p * (1 - pct / 100)) ∧
    (o.symbol = sym → o.status = .ACTIVE → o.is_activated = true → o.side ≠ "BUY" →
      p < o.peak_price →
      (monitor_trailing_stop_order sym p o).current_stop_price = p * (1 + pct / 100)) ∧
    (o.symbol = sym → o.status = .ACTIVE → o.is_activated = false →
      o.activation_price = some a → a ≠ 0 → o.side = "BUY" → a ≤ p →
      (monitor_trailing_stop_order sym p o).current_stop_price = p * (1 - pct / 100)) := by
  have htr : qTruthy o.trail_percent = true := by simp [qTruthy, hp, h0]
  have hamteq := monitor_trailing_stop_order_amt sym p o htr
  refine ⟨by rw [hamteq], by rw [hamteq], by rw [hamteq], by rw [hamteq],
    fun hsym hstat hact hb hpk => ?_, fun hsym hstat hact hb hpk => ?_,
    fun hsym hstat hact hap ha0 hb hcross => ?_⟩
  · have hg : ¬(o.symbol ≠ sym ∨ o.status ≠ .ACTIVE) := by simp [hsym, hstat]
    have hr : ts_ratchet_step p o =
        { o with peak_price := p, current_stop_price := buy_stop_update o p } := by
      simp [ts_ratchet_step, hact, hb, hpk]
    rw [monitor_trailing_stop_order, if_neg hg,
      ts_activation_step_of_activated p o hact, hr,
      (ts_trigger_step_fields p _).1]
    exact buy_stop_update_percent o pct p hp h0
  · have hg : ¬(o.symbol ≠ sym ∨ o.status ≠ .ACTIVE) := by simp [hsym, hstat]
    have hr : ts_ratchet_step p o =
        { o with peak_price := p, current_stop_price := sell_stop_update o p } := by
      simp [ts_ratchet_step, hact, hb, hpk]
    rw [monitor_trailing_stop_order, if_neg hg,
      ts_activation_step_of_activated p o hact, hr,
      (ts_trigger_step_fields p _).1]
    exact sell_stop_update_percent o pct p hp h0
  · have hg : ¬(o.symbol ≠ sym ∨ o.status ≠ .ACTIVE) := by simp [hsym, hstat]
    have hone : ts_activation_step p o =
        { o with is_activated := true, peak_price := p,
                 current_stop_price := buy_stop_update o p } := by
      have htra : qTruthy o.activation_price = true := by simp [qTruthy, hap, ha0]
      have hge : p ≥ orZero o.activation_price := by
        simp [orZero, hap, ha0]; exact hcross
      simp [ts_activation_step, hact, htra, hb, hge]
    have hr : ts_ratchet_step p (ts_activation_step p o) = ts_activation_step p o := by
      rw [hone]
      simp [ts_ratchet_step, hb]
    rw [monitor_trailing_stop_order, if_neg hg, hr,
      (ts_trigger_step_fields p _).1, hone]
    exact buy_stop_update_percent o pct p hp h0

/-- Trailing-stop order with both trail parameters set used to witness the
precedence theorem. -/
def c10WitnessOrder : TrailingStopOrder :=
  { symbol := "BTCUSDT", side := "BUY", quantity := 1, trail_amount := some 5,
    trail_percent := some 2, activation_price := none,
    current_stop_price := 98, peak_price := 100, is_activated := true,
    status := .ACTIVE }

/-- Witness for `trailing_percent_precedence` at a concrete order and price. -/
theorem trailing_percent_precedence_witness :
    ((monitor_trailing_stop_order "BTCUSDT" 101 c10WitnessOrder).current_stop_price =
      (monitor_trailing_stop_order "BTCUSDT" 101
        { c10WitnessOrder with trail_amount := none }).current_stop_price) ∧
    ((monitor_trailing_stop_order "BTCUSDT" 101 c10WitnessOrder).peak_price =
      (monitor_trailing_stop_order "BTCUSDT" 101
        { c10WitnessOrder with trail_amount := none }).peak_price) ∧
    ((monitor_trailing_stop_order "BTCUSDT" 101 c10WitnessOrder).status =
      (monitor_trailing_stop_order "BTCUSDT" 101
        { c10WitnessOrder with trail_amount := none }).status) ∧
    ((monitor_trailing_stop_order "BTCUSDT" 101 c10WitnessOrder).is_activated =
      (monitor_trailing_stop_order "BTCUSDT" 101
        { c10WitnessOrder with trail_amount := none }).is_activated) ∧
    (c10WitnessOrder.symbol = "BTCUSDT" → c10WitnessOrder.status = .ACTIVE →
      c10WitnessOrder.is_activated = true → c10WitnessOrder.side = "BUY" →
      c10WitnessOrder.peak_price < 101 →
      (monitor_trailing_stop_order "BTCUSDT" 101 c10WitnessOrder).current_stop_price =
        101 * (1 - 2 / 100)) ∧
    (c10WitnessOrder.symbol = "BTCUSDT" → c10WitnessOrder.status = .ACTIVE →
      c10WitnessOrder.is_activated = true → c10WitnessOrder.side ≠ "BUY" →
      (101 : ℚ) < c10WitnessOrder.peak_price →
      (monitor_trailing_stop_order "BTCUSDT" 101 c10WitnessOrder).current_stop_price =
        101 * (1 + 2 / 100)) ∧
    (c10WitnessOrder.symbol = "BTCUSDT" → c10WitnessOrder.status = .ACTIVE →
      c10WitnessOrder.is_activated = false →
      c10WitnessOrder.activation_price = some 1 → (1 : ℚ) ≠ 0 →
      c10WitnessOrder.side = "BUY" → (1 : ℚ) ≤ 101 →
      (monitor_trailing_stop_order "BTCUSDT" 101 c10WitnessOrder).current_stop_price =
        101 * (1 - 2 / 100)) :=
  trailing_percent_precedence c10WitnessOrder 2 5 1 "BTCUSDT" 101 rfl
    (by norm_num) rfl (by norm_num)

/-- One slice of an iceberg order (`IcebergSlice` dataclass). -/
structure IcebergSlice where
  quantity : ℚ
  status : OrderStatus := .PENDING
deriving DecidableEq, Repr

/-- Iceberg order (`IcebergOrder` dataclass). -/
structure IcebergOrder where
  symbol : String
  side : String
  total_quantity : ℚ
  display_quantity : ℚ
  executed_quantity : ℚ := 0
  randomize_slices : Bool := false
  time_interval : ℤ := 1000
  current_slice : Nat := 0
  slices : List IcebergSlice := []
  status : OrderStatus := .PENDING
deriving DecidableEq, Repr

/-- Slice list built by `AdvancedOrdersService.create_iceberg_order`:
`num_slices = int(total_quantity / display_quantity)` full slices of
`display_quantity` plus one remainder slice when
`remaining = total_quantity % display_quantity` is positive.  For the
positive quantities the service receives, Python `int` truncation coincides
with the floor and float `%` is `t - d * ⌊t / d⌋`. -/
def iceberg_slices (total_quantity display_quantity : ℚ) : List IcebergSlice :=
  let num_slices := (⌊total_quantity / display_quantity⌋).toNat
  let remaining := total_quantity - display_quantity * ⌊total_quantity / display_quantity⌋
  List.replicate num_slices { quantity := display_quantity } ++
    (if remaining > 0 then [{ quantity := remaining }] else [])

/-- Embedding of `AdvancedOrdersService.create_iceberg_order` (no quantity validation happens
at the service level; the endpoint validates before calling it). -/
def create_iceberg_order (symbol side : String)
    (total_quantity display_quantity : ℚ)
    (randomize_slices : Bool) (time_interval : ℤ) : IcebergOrder :=
  { symbol := pyUpper symbol
    side := pyUpper side
    total_quantity := total_quantity
    display_quantity := display_quantity
    randomize_slices := randomize_slices
    time_interval := time_interval
    slices := iceberg_slices total_quantity display_quantity
    status := .ACTIVE }

/-- Body of the per-order loop of `OrderMonitoringService._monitor_iceberg_orders`:
orders whose status is not ACTIVE are skipped (note: not PARTIALLY_FILLED
ones); an ACTIVE order with a PENDING slice at `current_slice` fills exactly
that slice, adds its quantity to `executed_quantity`, advances the index, and
becomes FILLED when the index reaches the slice count, else PARTIALLY_FILLED. -/
def monitor_iceberg_order (symbol : String) (current_price : ℚ) (o : IcebergOrder) :
    IcebergOrder :=
  if o.symbol ≠ symbol ∨ o.status ≠ .ACTIVE then o
  else if o.current_slice < o.slices.length then
    let sl := o.slices.getD o.current_slice { quantity := 0 }
    if sl.status = .PENDING then
      { o with slices := o.slices.set o.current_slice { sl with status := .FILLED }
               executed_quantity := o.executed_quantity + sl.quantity
               current_slice := o.current_slice + 1
               status := if o.slices.length ≤ o.current_slice + 1 then .FILLED
                         else .PARTIALLY_FILLED }
    else o
  else o

/-- Iterated monitoring of a single iceberg order over a sequence of price
updates. -/
def run_iceberg (o : IcebergOrder) (updates : List (String × ℚ)) : IcebergOrder :=
  updates.foldl (fun s u => monitor_iceberg_order u.1 u.2 s) o

lemma monitor_iceberg_order_skip (sym : String) (p : ℚ) (o : IcebergOrder)
    (h : o.status ≠ .ACTIVE) : monitor_iceberg_order sym p o = o := by
  unfold monitor_iceberg_order
  rw [if_pos (Or.inr h)]

lemma run_iceberg_skip (o : IcebergOrder) (ups : List (String × ℚ))
    (h : o.status ≠ .ACTIVE) : run_iceberg o ups = o := by
  induction ups with
  | nil => rfl
  | cons u us ih =>
    show run_iceberg (monitor_iceberg_order u.1 u.2 o) us = o
    rw [monitor_iceberg_order_skip u.1 u.2 o h, ih]

/-- The iceberg order of the spec scenario: `totalQuantity = 5`,
`displayQuantity = 1` (five slices of quantity 1). -/
def c4Order : IcebergOrder :=
  create_iceberg_order "BTCUSDT" "BUY" 5 1 false 1000

/-- Five successive price updates for the order's symbol. -/
def c4Updates : List (String × ℚ) :=
  List.replicate 5 ("BTCUSDT", 100)

/-- Evidence for the C4 code bug: after five successive price updates the
iceberg order of the spec scenario has executed only its first slice —
`executed_quantity = 1`, `current_slice = 1`, status PARTIALLY_FILLED — rather
than the claimed 5 / 5 / FILLED, because `_monitor_iceberg_orders` skips every
order whose status is not ACTIVE and the first fill sets PARTIALLY_FILLED,
after which the order is never revisited. -/
theorem iceberg_stalls_after_first_slice :
    (run_iceberg c4Order c4Updates).executed_quantity = 1 ∧
    (run_iceberg c4Order c4Updates).current_slice = 1 ∧
    (run_iceberg c4Order c4Updates).status = .PARTIALLY_FILLED ∧
    c4Order.slices.length = 5 := by
  have hslices : iceberg_slices 5 1 =
      List.replicate 5 { quantity := 1, status := .PENDING } := by
    norm_num [iceberg_slices]
    decide
  have hord : c4Order =
      { symbol := "BTCUSDT", side := "BUY", total_quantity := 5,
        display_quantity := 1, executed_quantity := 0, randomize_slices := false,
        time_interval := 1000, current_slice := 0,
        slices := List.replicate 5 { quantity := 1, status := .PENDING },
        status := .ACTIVE } := by
    rw [show c4Order = { create_iceberg_order "BTCUSDT" "BUY" 5 1 false 1000 with
        slices := iceberg_slices 5 1 } from rfl, hslices]
    decide
  have hstep : monitor_iceberg_order "BTCUSDT" 100 c4Order =
      { symbol := "BTCUSDT", side := "BUY", total_quantity := 5,
        display_quantity := 1, executed_quantity := 1, randomize_slices := false,
        time_interval := 1000, current_slice := 1,
        slices := { quantity := 1, status := .FILLED } ::
          List.replicate 4 { quantity := 1, status := .PENDING },
        status := .PARTIALLY_FILLED } := by
    rw [hord]
    norm_num [monitor_iceberg_order, List.replicate]
  have hrun : run_iceberg c4Order c4Updates =
      monitor_iceberg_order "BTCUSDT" 100 c4Order := by
    show run_iceberg (monitor_iceberg_order "BTCUSDT" 100 c4Order)
        (List.replicate 4 ("BTCUSDT", 100)) = _
    refine run_iceberg_skip _ _ ?_
    rw [hstep]
    decide
  rw [hrun, hstep, hord]
  refine ⟨rfl, rfl, rfl, ?_⟩
  decide

/-- C9 (Iceberg slice construction): for positive quantities, the slices built
by `create_iceberg_order` sum exactly to `total_quantity`; every slice other
than the last carries `display_quantity`; when `total_quantity` is not an
exact multiple of `display_quantity` the last slice carries the remainder;
and the spec example `totalQuantity = 5, displayQuantity = 2` yields exactly
the quantities `[2, 2, 1]`. -/
theorem iceberg_slice_construction (t d : ℚ) (sl : IcebergSlice)
    (ht : 0 < t) (hd : 0 < d)
    (hsl : sl ∈ (iceberg_slices t d).dropLast) :
    ((iceberg_slices t d).map (fun s => s.quantity)).sum = t ∧
    sl.quantity = d ∧
    (t - d * ⌊t / d⌋ > 0 →
      (iceberg_slices t d).getLast? =
        some { quantity := t - d * ⌊t / d⌋, status := .PENDING }) ∧
    (iceberg_slices 5 2).map (fun s => s.quantity) = [2, 2, 1] := by
  have hexp : iceberg_slices t d =
      List.replicate (⌊t / d⌋).toNat { quantity := d, status := .PENDING } ++
        (if t - d * ⌊t / d⌋ > 0 then
          [{ quantity := t - d * ⌊t / d⌋, status := .PENDING }] else []) := rfl
  have hfl : (0:ℤ) ≤ ⌊t / d⌋ := Int.floor_nonneg.mpr (le_of_lt (div_pos ht hd))
  have hcast : ((⌊t / d⌋).toNat : ℚ) = (⌊t / d⌋ : ℚ) := by
    exact_mod_cast congrArg (fun z : ℤ => (z : ℚ)) (Int.toNat_of_nonneg hfl)
  have hle : d * (⌊t / d⌋ : ℚ) ≤ t := by
    have h := Int.floor_le (t / d)
    calc d * (⌊t / d⌋ : ℚ) ≤ d * (t / d) := mul_le_mul_of_nonneg_left h (le_of_lt hd)
      _ = t := by field_simp
  have hsum_rep :
      ((List.replicate (⌊t / d⌋).toNat
        ({ quantity := d, status := .PENDING } : IcebergSlice)).map
          (fun s => s.quantity)).sum = ((⌊t / d⌋).toNat : ℚ) * d := by
    simp [List.map_replicate, List.sum_replicate, nsmul_eq_mul]
  have hexample : (iceberg_slices 5 2).map (fun s => s.quantity) = [2, 2, 1] := by
    norm_num [iceberg_slices]
    decide
  refine ⟨?_, ?_, fun hrpos => ?_, hexample⟩
  · rw [hexp]
    by_cases hrpos : t - d * (⌊t / d⌋ : ℚ) > 0
    · rw [if_pos hrpos]
      rw [List.map_append, List.sum_append, hsum_rep]
      simp only [List.map_cons, List.map_nil, List.sum_cons, List.sum_nil]
      rw [hcast]; ring
    · rw [if_neg hrpos]
      rw [List.append_nil, hsum_rep, hcast]
      have : t - d * (⌊t / d⌋ : ℚ) = 0 := le_antisymm (not_lt.mp hrpos) (by linarith)
      linarith [this]
  · rw [hexp] at hsl
    by_cases hrpos : t - d * (⌊t / d⌋ : ℚ) > 0
    · rw [if_pos hrpos, List.dropLast_concat] at hsl
      exact congrArg (fun s => s.quantity) (List.eq_of_mem_replicate hsl)
    · rw [if_neg hrpos, List.append_nil] at hsl
      have hmem := List.dropLast_subset _ hsl
      exact congrArg (fun s => s.quantity) (List.eq_of_mem_replicate hmem)
  · rw [hexp, if_pos hrpos]
    simp [List.getLast?_concat]

/-- Witness for `iceberg_slice_construction` at the spec example
`totalQuantity = 5, displayQuantity = 2`, with a first slice of quantity 2. -/
theorem iceberg_slice_construction_witness :
    ((iceberg_slices 5 2).map (fun s => s.quantity)).sum = 5 ∧
    ({ quantity := 2, status := .PENDING } : IcebergSlice).quantity = 2 ∧
    ((5 : ℚ) - 2 * ⌊(5 : ℚ) / 2⌋ > 0 →
      (iceberg_slices 5 2).getLast? =
        some { quantity := (5 : ℚ) - 2 * ⌊(5 : ℚ) / 2⌋, status := .PENDING }) ∧
    (iceberg_slices 5 2).map (fun s => s.quantity) = [2, 2, 1] :=
  iceberg_slice_construction 5 2 { quantity := 2, status := .PENDING }
    (by norm_num) (by norm_num)
    (by norm_num [iceberg_slices])

/-- The `POST /advanced-order/iceberg` handler of `api/advanced_orders.py`
together with the pydantic request model: requests with a non-positive
quantity fail pydantic validation (`gt=0`, status 422) before the handler
runs; the handler then rejects an invalid side (400) and
`display_quantity > total_quantity` (400), in that order, before calling the
service factory; only on the success path is the created order inserted into
the iceberg registry.  The result pairs the HTTP outcome with the registry
after the call. -/
def create_iceberg_endpoint (symbol side : String)
    (total_quantity display_quantity : ℚ)
    (randomize_slices : Bool) (time_interval : ℤ)
    (registry : List IcebergOrder) :
    Except (Nat × String) IcebergOrder × List IcebergOrder :=
  if ¬(0 < total_quantity) ∨ ¬(0 < display_quantity) then
    (.error (422, "request validation failed"), registry)
  else if pyUpper side ≠ "BUY" ∧ pyUpper side ≠ "SELL" then
    (.error (400, "Order side must be BUY or SELL"), registry)
  else if display_quantity > total_quantity then
    (.error (400, "Display quantity cannot exceed total quantity"), registry)
  else
    let o := create_iceberg_order symbol side total_quantity display_quantity
      randomize_slices time_interval
    (.ok o, registry ++ [o])

/-- C8 (Iceberg creation validation): a request with
`display_quantity > total_quantity` (and otherwise valid fields) is rejected
synchronously with the 400 validation error of the handler, and the iceberg
registry is unchanged — the service factory that would build the slices is
never reached. -/
theorem iceberg_validation_rejects (symbol side : String) (t d : ℚ)
    (r : Bool) (ti : ℤ) (registry : List IcebergOrder)
    (ht : 0 < t) (hd : 0 < d)
    (hside : pyUpper side = "BUY" ∨ pyUpper side = "SELL")
    (hgt : d > t) :
    (create_iceberg_endpoint symbol side t d r ti registry).1 =
      .error (400, "Display quantity cannot exceed total quantity") ∧
    (create_iceberg_endpoint symbol side t d r ti registry).2 = registry := by
  have h1 : ¬(¬(0 < t) ∨ ¬(0 < d)) := by push_neg; exact ⟨ht, hd⟩
  have h2 : ¬(pyUpper side ≠ "BUY" ∧ pyUpper side ≠ "SELL") := by
    rcases hside with h | h <;> simp [h]
  unfold create_iceberg_endpoint
  rw [if_neg h1, if_neg h2, if_pos hgt]
  exact ⟨rfl, rfl⟩

/-- Witness for `iceberg_validation_rejects`: a BUY request with
`total_quantity = 5` and `display_quantity = 10` against an empty registry. -/
theorem iceberg_validation_rejects_witness :
    (create_iceberg_endpoint "BTCUSDT" "BUY" 5 10 false 1000 []).1 =
      .error (400, "Display quantity cannot exceed total quantity") ∧
    (create_iceberg_endpoint "BTCUSDT" "BUY" 5 10 false 1000 []).2 = [] :=
  iceberg_validation_rejects "BTCUSDT" "BUY" 5 10 false 1000 []
    (by decide) (by decide) (Or.inl (by decide)) (by decide)

/-- The four id-keyed registries of `AdvancedOrdersService` (insertion-ordered
Python dicts, modelled as association lists). -/
structure Registries where
  oco_orders : List (String × OCOOrder) := []
  bracket_orders : List (String × BracketOrder) := []
  trailing_stop_orders : List (String × TrailingStopOrder) := []
  iceberg_orders : List (String × IcebergOrder) := []
deriving DecidableEq, Repr

/-- Test `order_id in registry` on an association list. -/
def containsId {α : Type} (l : List (String × α)) (order_id : String) : Bool :=
  l.any (fun kv => kv.1 = order_id)

/-- Effect of `registry[order_id].status = CANCELLED` on an association list: apply the
status update to the entry with the given key. -/
def cancel_in {α : Type} (set_cancelled : α → α) (l : List (String × α))
    (order_id : String) : List (String × α) :=
  l.map (fun kv => if kv.1 = order_id then (kv.1, set_cancelled kv.2) else kv)

/-- Embedding of `AdvancedOrdersService.cancel_order`: check the four registries in order;
on the first registry containing the id, set that order's status to CANCELLED
unconditionally and return `True`; if no registry contains the id return
`False`. -/
def cancel_order (r : Registries) (order_id : String) : Bool × Registries :=
  if containsId r.oco_orders order_id then
    (true, { r with
      oco_orders := cancel_in (fun o => { o with status := .CANCELLED }) r.oco_orders order_id })
  else if containsId r.bracket_orders order_id then
    (true, { r with
      bracket_orders := cancel_in (fun o => { o with status := .CANCELLED }) r.bracket_orders order_id })
  else if containsId r.trailing_stop_orders order_id then
    (true, { r with
      trailing_stop_orders := cancel_in (fun o => { o with status := .CANCELLED }) r.trailing_stop_orders order_id })
  else if containsId r.iceberg_orders order_id then
    (true, { r with
      iceberg_orders := cancel_in (fun o => { o with status := .CANCELLED }) r.iceberg_orders order_id })
  else (false, r)

/-- Status of the OCO order stored under a given id, if any. -/
def ocoStatusOf (r : Registries) (order_id : String) : Option OrderStatus :=
  (r.oco_orders.find? (fun kv => kv.1 = order_id)).map (fun kv => kv.2.status)

/-- Status of the bracket order stored under a given id, if any. -/
def bracketStatusOf (r : Registries) (order_id : String) : Option OrderStatus :=
  (r.bracket_orders.find? (fun kv => kv.1 = order_id)).map (fun kv => kv.2.status)

/-- Status of the trailing stop order stored under a given id, if any. -/
def trailingStatusOf (r : Registries) (order_id : String) : Option OrderStatus :=
  (r.trailing_stop_orders.find? (fun kv => kv.1 = order_id)).map (fun kv => kv.2.status)

/-- Status of the iceberg order stored under a given id, if any. -/
def icebergStatusOf (r : Registries) (order_id : String) : Option OrderStatus :=
  (r.iceberg_orders.find? (fun kv => kv.1 = order_id)).map (fun kv => kv.2.status)

/-- FILLED OCO order used in the cancellation counterexample. -/
def c6FilledOrder : OCOOrder :=
  { symbol := "BTCUSDT", side := "BUY", quantity := 1
    order1 := { order_type := "LIMIT", price := some 95, status := .FILLED }
    order2 := { order_type := "STOP_MARKET", stop_price := some 110, status := .CANCELLED }
    status := .FILLED, filled_leg := some 1 }

/-- Registry holding only the FILLED OCO order under id `oco-1`. -/
def c6Registry : Registries :=
  { oco_orders := [("oco-1", c6FilledOrder)] }

/-- Counterexample to C6 as stated: cancelling the FILLED order `oco-1` does
not leave it FILLED — `cancel_order` flips its status to CANCELLED
unconditionally (and reports success), because the source never checks the
current status before assigning CANCELLED. -/
theorem cancel_filled_counterexample :
    c6FilledOrder.status = .FILLED ∧
    (cancel_order c6Registry "oco-1").1 = true ∧
    ocoStatusOf (cancel_order c6Registry "oco-1").2 "oco-1" = some .CANCELLED := by
  decide

lemma containsId_cancel_in {α : Type} (setc : α → α) (l : List (String × α))
    (a b : String) : containsId (cancel_in setc l a) b = containsId l b := by
  induction l with
  | nil => rfl
  | cons kv tl ih =>
    simp only [cancel_in, List.map_cons, containsId, List.any_cons] at ih ⊢
    by_cases h : kv.1 = a
    · simp [h, ih]
    · simp [h, ih]

lemma find?_cancel_in_self {α : Type} (setc : α → α) (l : List (String × α))
    (a : String) :
    List.find? (fun kv => kv.1 = a) (cancel_in setc l a) =
      (List.find? (fun kv => kv.1 = a) l).map (fun kv => (kv.1, setc kv.2)) := by
  induction l with
  | nil => rfl
  | cons kv tl ih =>
    by_cases h : kv.1 = a
    · simp [cancel_in, List.find?_cons, h]
    · simp only [cancel_in, List.map_cons, if_neg h]
      rw [List.find?_cons_of_neg _ (by simpa using h),
        List.find?_cons_of_neg _ (by simpa using h)]
      simpa [cancel_in] using ih

lemma find?_cancel_in_other {α : Type} (setc : α → α) (l : List (String × α))
    (a b : String) (hne : b ≠ a) :
    List.find? (fun kv => kv.1 = b) (cancel_in setc l a) =
      List.find? (fun kv => kv.1 = b) l := by
  induction l with
  | nil => rfl
  | cons kv tl ih =>
    by_cases h : kv.1 = a
    · have hb : ¬ kv.1 = b := by rw [h]; exact fun hc => hne hc.symm
      simp only [cancel_in, List.map_cons, if_pos h]
      rw [List.find?_cons_of_neg _ (by simpa using hb),
        List.find?_cons_of_neg _ (by simpa using hb)]
      simpa [cancel_in] using ih
    · simp only [cancel_in, List.map_cons, if_neg h]
      by_cases hb : kv.1 = b
      · rw [List.find?_cons_of_pos _ (by simpa using hb),
          List.find?_cons_of_pos _ (by simpa using hb)]
      · rw [List.find?_cons_of_neg _ (by simpa using hb),
          List.find?_cons_of_neg _ (by simpa using hb)]
        simpa [cancel_in] using ih

lemma containsId_isSome_find? {α : Type} (l : List (String × α)) (a : String)
    (h : containsId l a = true) :
    ∃ kv, List.find? (fun kv => kv.1 = a) l = some kv := by
  induction l with
  | nil => simp [containsId] at h
  | cons kv tl ih =>
    by_cases hh : kv.1 = a
    · exact ⟨kv, List.find?_cons_of_pos _ (by simpa using hh)⟩
    · simp only [containsId, List.any_cons] at h
      rw [List.find?_cons_of_neg _ (by simpa using hh)]
      apply ih
      simpa [containsId, hh] using h

lemma cancel_in_idem {α : Type} (setc : α → α)
    (hidem : ∀ x, setc (setc x) = setc x) (l : List (String × α)) (a : String) :
    cancel_in setc (cancel_in setc l a) a = cancel_in setc l a := by
  induction l with
  | nil => rfl
  | cons kv tl ih =>
    simp only [cancel_in] at ih ⊢
    by_cases h : kv.1 = a <;> simp [h, hidem, ih]

/-- C6 amended (cancel semantics): `cancel_order` reports success exactly when
the id is present in some registry and is a strict no-op (returns `False`,
state unchanged) on unknown ids; for a known id it sets the order's status to
CANCELLED unconditionally — regardless of the current status, so a FILLED
order becomes CANCELLED rather than staying FILLED; orders under other ids
are untouched; and cancellation is idempotent (a second cancel of the same id
succeeds and changes nothing further, so cancelling an already-CANCELLED
order is a no-op that does not fail). -/
theorem cancel_order_unconditional (r : Registries) (order_id other_id : String)
    (hne : other_id ≠ order_id) :
    ((cancel_order r order_id).1 =
      (containsId r.oco_orders order_id || containsId r.bracket_orders order_id ||
       containsId r.trailing_stop_orders order_id ||
       containsId r.iceberg_orders order_id)) ∧
    ((containsId r.oco_orders order_id || containsId r.bracket_orders order_id ||
      containsId r.trailing_stop_orders order_id ||
      containsId r.iceberg_orders order_id) = false →
      cancel_order r order_id = (false, r)) ∧
    (containsId r.oco_orders order_id = true →
      ocoStatusOf (cancel_order r order_id).2 order_id = some .CANCELLED) ∧
    (containsId r.oco_orders order_id = false →
      containsId r.bracket_orders order_id = true →
      bracketStatusOf (cancel_order r order_id).2 order_id = some .CANCELLED) ∧
    (containsId r.oco_orders order_id = false →
      containsId r.bracket_orders order_id = false →
      containsId r.trailing_stop_orders order_id = true →
      trailingStatusOf (cancel_order r order_id).2 order_id = some .CANCELLED) ∧
    (containsId r.oco_orders order_id = false →
      containsId r.bracket_orders order_id = false →
      containsId r.trailing_stop_orders order_id = false →
      containsId r.iceberg_orders order_id = true →
      icebergStatusOf (cancel_order r order_id).2 order_id = some .CANCELLED) ∧
    (ocoStatusOf (cancel_order r order_id).2 other_id = ocoStatusOf r other_id ∧
     bracketStatusOf (cancel_order r order_id).2 other_id = bracketStatusOf r other_id ∧
     trailingStatusOf (cancel_order r order_id).2 other_id = trailingStatusOf r other_id ∧
     icebergStatusOf (cancel_order r order_id).2 other_id = icebergStatusOf r other_id) ∧
    ((cancel_order (cancel_order r order_id).2 order_id).2 =
      (cancel_order r order_id).2) := by
  by_cases h1 : containsId r.oco_orders order_id = true
  · have hc : cancel_order r order_id = (true, { r with
        oco_orders := cancel_in (fun o => { o with status := .CANCELLED }) r.oco_orders order_id }) := by
      unfold cancel_order
      rw [if_pos h1]
    have hb : containsId (cancel_in (fun o => { o with status := .CANCELLED }) r.oco_orders order_id) order_id = true := by
      rw [containsId_cancel_in]; exact h1
    have hc2 : cancel_order (cancel_order r order_id).2 order_id = (true, { r with
        oco_orders := cancel_in (fun o => { o with status := .CANCELLED }) (cancel_in (fun o => { o with status := .CANCELLED }) r.oco_orders order_id) order_id }) := by
      rw [hc]; unfold cancel_order
      rw [if_pos hb]
    obtain ⟨kv, hkv⟩ := containsId_isSome_find? r.oco_orders order_id h1
    refine ⟨?_, ?_, ?_, ?_, ?_, ?_, ⟨?_, ?_, ?_, ?_⟩, ?_⟩
    · rw [hc, h1]; rfl
    · intro hf; rw [h1] at hf; simp at hf
    · intro _; rw [hc]; simp only [ocoStatusOf]; rw [find?_cancel_in_self, hkv]; rfl
    · intro hf _; rw [h1] at hf; simp at hf
    · intro hf _ _; rw [h1] at hf; simp at hf
    · intro hf _ _ _; rw [h1] at hf; simp at hf
    · rw [hc]; simp only [ocoStatusOf]; rw [find?_cancel_in_other _ _ _ _ hne]
    · rw [hc]; rfl
    · rw [hc]; rfl
    · rw [hc]; rfl
    · rw [hc2, hc, cancel_in_idem (fun o : OCOOrder => { o with status := .CANCELLED }) (fun x => rfl) r.oco_orders order_id]
  · have h1f : containsId r.oco_orders order_id = false := by simpa using h1
    by_cases h2 : containsId r.bracket_orders order_id = true
    · have hc : cancel_order r order_id = (true, { r with
          bracket_orders := cancel_in (fun o => { o with status := .CANCELLED }) r.bracket_orders order_id }) := by
        unfold cancel_order
        rw [if_neg h1, if_pos h2]
      have hb : containsId (cancel_in (fun o => { o with status := .CANCELLED }) r.bracket_orders order_id) order_id = true := by
        rw [containsId_cancel_in]; exact h2
      have hc2 : cancel_order (cancel_order r order_id).2 order_id = (true, { r with
          bracket_orders := cancel_in (fun o => { o with status := .CANCELLED }) (cancel_in (fun o => { o with status := .CANCELLED }) r.bracket_orders order_id) order_id }) := by
        rw [hc]; unfold cancel_order
        rw [if_neg h1, if_pos hb]
      obtain ⟨kv, hkv⟩ := containsId_isSome_find? r.bracket_orders order_id h2
      refine ⟨?_, ?_, ?_, ?_, ?_, ?_, ⟨?_, ?_, ?_, ?_⟩, ?_⟩
      · rw [hc, h1f, h2]; rfl
      · intro hf; rw [h2] at hf; simp at hf
      · intro ht; rw [ht] at h1f; simp at h1f
      · intro _ _; rw [hc]; simp only [bracketStatusOf]; rw [find?_cancel_in_self, hkv]; rfl
      · intro _ hf _; rw [h2] at hf; simp at hf
      · intro _ hf _ _; rw [h2] at hf; simp at hf
      · rw [hc]; rfl
      · rw [hc]; simp only [bracketStatusOf]; rw [find?_cancel_in_other _ _ _ _ hne]
      · rw [hc]; rfl
      · rw [hc]; rfl
      · rw [hc2, hc, cancel_in_idem (fun o : BracketOrder => { o with status := .CANCELLED }) (fun x => rfl) r.bracket_orders order_id]
    · have h2f : containsId r.bracket_orders order_id = false := by simpa using h2
      by_cases h3 : containsId r.trailing_stop_orders order_id = true
      · have hc : cancel_order r order_id = (true, { r with
            trailing_stop_orders := cancel_in (fun o => { o with status := .CANCELLED }) r.trailing_stop_orders order_id }) := by
          unfold cancel_order
          rw [if_neg h1, if_neg h2, if_pos h3]
        have hb : containsId (cancel_in (fun o => { o with status := .CANCELLED }) r.trailing_stop_orders order_id) order_id = true := by
          rw [containsId_cancel_in]; exact h3
        have hc2 : cancel_order (cancel_order r order_id).2 order_id = (true, { r with
            trailing_stop_orders := cancel_in (fun o => { o with status := .CANCELLED }) (cancel_in (fun o => { o with status := .CANCELLED }) r.trailing_stop_orders order_id) order_id }) := by
          rw [hc]; unfold cancel_order
          rw [if_neg h1, if_neg h2, if_pos hb]
        obtain ⟨kv, hkv⟩ := containsId_isSome_find? r.trailing_stop_orders order_id h3
        refine ⟨?_, ?_, ?_, ?_, ?_, ?_, ⟨?_, ?_, ?_, ?_⟩, ?_⟩
        · rw [hc, h1f, h2f, h3]; rfl
        · intro hf; rw [h3] at hf; simp at hf
        · intro ht; rw [ht] at h1f; simp at h1f
        · intro _ ht; rw [ht] at h2f; simp at h2f
        · intro _ _ _; rw [hc]; simp only [trailingStatusOf]; rw [find?_cancel_in_self, hkv]; rfl
        · intro _ _ hf _; rw [h3] at hf; simp at hf
        · rw [hc]; rfl
        · rw [hc]; rfl
        · rw [hc]; simp only [trailingStatusOf]; rw [find?_cancel_in_other _ _ _ _ hne]
        · rw [hc]; rfl
        · rw [hc2, hc, cancel_in_idem (fun o : TrailingStopOrder => { o with status := .CANCELLED }) (fun x => rfl) r.trailing_stop_orders order_id]
      · have h3f : containsId r.trailing_stop_orders order_id = false := by simpa using h3
        by_cases h4 : containsId r.iceberg_orders order_id = true
        · have hc : cancel_order r order_id = (true, { r with
              iceberg_orders := cancel_in (fun o => { o with status := .CANCELLED }) r.iceberg_orders order_id }) := by
            unfold cancel_order
            rw [if_neg h1, if_neg h2, if_neg h3, if_pos h4]
          have hb : containsId (cancel_in (fun o => { o with status := .CANCELLED }) r.iceberg_orders order_id) order_id = true := by
            rw [containsId_cancel_in]; exact h4
          have hc2 : cancel_order (cancel_order r order_id).2 order_id = (true, { r with
              iceberg_orders := cancel_in (fun o => { o with status := .CANCELLED }) (cancel_in (fun o => { o with status := .CANCELLED }) r.iceberg_orders order_id) order_id }) := by
            rw [hc]; unfold cancel_order
            rw [if_neg h1, if_neg h2, if_neg h3, if_pos hb]
          obtain ⟨kv, hkv⟩ := containsId_isSome_find? r.iceberg_orders order_id h4
          refine ⟨?_, ?_, ?_, ?_, ?_, ?_, ⟨?_, ?_, ?_, ?_⟩, ?_⟩
          · rw [hc, h1f, h2f, h3f, h4]; rfl
          · intro hf; rw [h4] at hf; simp at hf
          · intro ht; rw [ht] at h1f; simp at h1f
          · intro _ ht; rw [ht] at h2f; simp at h2f
          · intro _ _ ht; rw [ht] at h3f; simp at h3f
          · intro _ _ _ _; rw [hc]; simp only [icebergStatusOf]; rw [find?_cancel_in_self, hkv]; rfl
          · rw [hc]; rfl
          · rw [hc]; rfl
          · rw [hc]; rfl
          · rw [hc]; simp only [icebergStatusOf]; rw [find?_cancel_in_other _ _ _ _ hne]
          · rw [hc2, hc, cancel_in_idem (fun o : IcebergOrder => { o with status := .CANCELLED }) (fun x => rfl) r.iceberg_orders order_id]
        · have h4f : containsId r.iceberg_orders order_id = false := by simpa using h4
          have hc : cancel_order r order_id = (false, r) := by
            unfold cancel_order
            rw [if_neg h1, if_neg h2, if_neg h3, if_neg h4]
          refine ⟨?_, fun _ => hc, ?_, ?_, ?_, ?_, ⟨?_, ?_, ?_, ?_⟩, ?_⟩
          · rw [hc, h1f, h2f, h3f, h4f]; rfl
          · intro ht; rw [ht] at h1f; simp at h1f
          · intro _ ht; rw [ht] at h2f; simp at h2f
          · intro _ _ ht; rw [ht] at h3f; simp at h3f
          · intro _ _ _ ht; rw [ht] at h4f; simp at h4f
          · rw [hc]
          · rw [hc]
          · rw [hc]
          · rw [hc]
          · rw [hc, hc]

/-- Witness for `cancel_order_unconditional`: cancelling `oco-1` in the
registry that holds the FILLED OCO order, with `other` as a distinct id. -/
theorem cancel_order_unconditional_witness :
    ((cancel_order c6Registry "oco-1").1 =
      (containsId c6Registry.oco_orders "oco-1" ||
       containsId c6Registry.bracket_orders "oco-1" ||
       containsId c6Registry.trailing_stop_orders "oco-1" ||
       containsId c6Registry.iceberg_orders "oco-1")) ∧
    ((containsId c6Registry.oco_orders "oco-1" ||
      containsId c6Registry.bracket_orders "oco-1" ||
      containsId c6Registry.trailing_stop_orders "oco-1" ||
      containsId c6Registry.iceberg_orders "oco-1") = false →
      cancel_order c6Registry "oco-1" = (false, c6Registry)) ∧
    (containsId c6Registry.oco_orders "oco-1" = true →
      ocoStatusOf (cancel_order c6Registry "oco-1").2 "oco-1" = some .CANCELLED) ∧
    (containsId c6Registry.oco_orders "oco-1" = false →
      containsId c6Registry.bracket_orders "oco-1" = true →
      bracketStatusOf (cancel_order c6Registry "oco-1").2 "oco-1" = some .CANCELLED) ∧
    (containsId c6Registry.oco_orders "oco-1" = false →
      containsId c6Registry.bracket_orders "oco-1" = false →
      containsId c6Registry.trailing_stop_orders "oco-1" = true →
      trailingStatusOf (cancel_order c6Registry "oco-1").2 "oco-1" = some .CANCELLED) ∧
    (containsId c6Registry.oco_orders "oco-1" = false →
      containsId c6Registry.bracket_orders "oco-1" = false →
      containsId c6Registry.trailing_stop_orders "oco-1" = false →
      containsId c6Registry.iceberg_orders "oco-1" = true →
      icebergStatusOf (cancel_order c6Registry "oco-1").2 "oco-1" = some .CANCELLED) ∧
    (ocoStatusOf (cancel_order c6Registry "oco-1").2 "other" = ocoStatusOf c6Registry "other" ∧
     bracketStatusOf (cancel_order c6Registry "oco-1").2 "other" =
       bracketStatusOf c6Registry "other" ∧
     trailingStatusOf (cancel_order c6Registry "oco-1").2 "other" =
       trailingStatusOf c6Registry "other" ∧
     icebergStatusOf (cancel_order c6Registry "oco-1").2 "other" =
       icebergStatusOf c6Registry "other") ∧
    ((cancel_order (cancel_order c6Registry "oco-1").2 "oco-1").2 =
      (cancel_order c6Registry "oco-1").2) :=
  cancel_order_unconditional c6Registry "oco-1" "other" (by decide)

/-- Python `for` loop over the orders of one registry with a loop body that can
raise: each order is passed to the evaluation `f`; on the first raised
exception the iteration stops, the remaining orders (including the raising
one, whose trigger evaluation precedes any mutation in the source) keep their
previous state, and the exception propagates to the caller.  There is no
try/except around the loop body in `update_market_price` or in any of the
four `_monitor_*` methods — only websocket broadcasting is guarded. -/
def monitor_list_exc {α ε : Type} (f : α → Except ε α) : List α → List α × Option ε
  | [] => ([], none)
  | x :: xs =>
    match f x with
    | .error e => (x :: xs, some e)
    | .ok y =>
      let rest := monitor_list_exc f xs
      (y :: rest.1, rest.2)

/-- The four order collections scanned by one `update_market_price` call. -/
structure MonState where
  ocoList : List OCOOrder := []
  bracketList : List BracketOrder := []
  trailingList : List TrailingStopOrder := []
  icebergList : List IcebergOrder := []
deriving DecidableEq, Repr

/-- Embedding of `OrderMonitoringService.update_market_price` with explicit per-order
evaluation results: the four registries are monitored in the source's order
(OCO, bracket, trailing stop, iceberg); an exception raised while evaluating
one order aborts its registry scan and skips the remaining registries, and
propagates out of the call (second component). -/
def update_market_price_exc
    (eo : OCOOrder → Except String OCOOrder)
    (eb : BracketOrder → Except String BracketOrder)
    (et : TrailingStopOrder → Except String TrailingStopOrder)
    (ei : IcebergOrder → Except String IcebergOrder)
    (s : MonState) : MonState × Option String :=
  match monitor_list_exc eo s.ocoList with
  | (l1, some e) => ({ s with ocoList := l1 }, some e)
  | (l1, none) =>
    match monitor_list_exc eb s.bracketList with
    | (l2, some e) => ({ s with ocoList := l1, bracketList := l2 }, some e)
    | (l2, none) =>
      match monitor_list_exc et s.trailingList with
      | (l3, some e) =>
        ({ s with ocoList := l1, bracketList := l2, trailingList := l3 }, some e)
      | (l3, none) =>
        match monitor_list_exc ei s.icebergList with
        | (l4, r) =>
          ({ ocoList := l1, bracketList := l2, trailingList := l3,
             icebergList := l4 }, r)

/-- Non-raising evaluation of one OCO order: the pure loop body. -/
def eval_oco_ok (symbol : String) (price : ℚ) : OCOOrder → Except String OCOOrder :=
  fun o => .ok (monitor_oco_order symbol price o)

lemma monitor_list_exc_ok {α ε : Type} (g : α → α) (l : List α) :
    monitor_list_exc (fun x => (.ok (g x) : Except ε α)) l = (l.map g, none) := by
  induction l with
  | nil => rfl
  | cons x xs ih => simp [monitor_list_exc, ih]

/-- OCO order marked (by quantity 0) so that the injected evaluation raises. -/
def c7BadOrder : OCOOrder :=
  { symbol := "BTCUSDT", side := "BUY", quantity := 0
    order1 := { order_type := "LIMIT", price := some 95 }
    order2 := { order_type := "STOP_MARKET", stop_price := some 110 }
    status := .ACTIVE }

/-- Healthy ACTIVE OCO order whose LIMIT leg triggers at price 94. -/
def c7GoodOrder : OCOOrder :=
  { symbol := "BTCUSDT", side := "BUY", quantity := 1
    order1 := { order_type := "LIMIT", price := some 95 }
    order2 := { order_type := "STOP_MARKET", stop_price := some 110 }
    status := .ACTIVE }

/-- Bracket order with a MARKET entry that any price update would fill (stated
literally, with the risk/reward ratio precomputed, so that the whole
monitoring state is kernel-computable). -/
def c7BracketOrder : BracketOrder :=
  { symbol := "BTCUSDT", side := "BUY", quantity := 1
    entry_order := { order_type := "MARKET", quantity := 1, price := some 100 }
    stop_loss_order := { order_type := "STOP_MARKET", quantity := 1, stop_price := some 90 }
    take_profit_order := { order_type := "LIMIT", quantity := 1, limit_price := some 110 }
    risk_reward_ratio := 1
    status := .ACTIVE }

/-- Evaluation that raises on the marked order and otherwise runs the pure OCO
monitor at price 94. -/
def c7Eval : OCOOrder → Except String OCOOrder :=
  fun o => if o.quantity = 0 then .error "evaluation failure"
           else .ok (monitor_oco_order "BTCUSDT" 94 o)

/-- Monitoring state placing the raising order ahead of the healthy order,
with a bracket order waiting in the next registry. -/
def c7State : MonState :=
  { ocoList := [c7BadOrder, c7GoodOrder], bracketList := [c7BracketOrder] }

/-- Counterexample to C7 as stated: when evaluating the first OCO order
raises, the failure is not caught at the per-order boundary — it propagates
out of the update call, the sibling OCO order is left unevaluated (it stays
ACTIVE although the pure monitor would have filled it at price 94), and the
bracket registry is never scanned (its MARKET entry stays unfilled). -/
theorem per_order_isolation_counterexample :
    (update_market_price_exc c7Eval
      (fun b => .ok (monitor_bracket_order "BTCUSDT" 94 b))
      (fun t => .ok (monitor_trailing_stop_order "BTCUSDT" 94 t))
      (fun i => .ok (monitor_iceberg_order "BTCUSDT" 94 i))
      c7State).2 = some "evaluation failure" ∧
    (update_market_price_exc c7Eval
      (fun b => .ok (monitor_bracket_order "BTCUSDT" 94 b))
      (fun t => .ok (monitor_trailing_stop_order "BTCUSDT" 94 t))
      (fun i => .ok (monitor_iceberg_order "BTCUSDT" 94 i))
      c7State).1 = c7State ∧
    (monitor_oco_order "BTCUSDT" 94 c7GoodOrder).status = .FILLED ∧
    (monitor_bracket_order "BTCUSDT" 94 c7BracketOrder).entry_filled = true := by
  decide

lemma monitor_list_exc_mid {α ε : Type} (f : α → Except ε α)
    (front back : List α) (front' : List α) (x : α) (e : ε)
    (hfront : monitor_list_exc f front = (front', none))
    (hx : f x = .error e) :
    monitor_list_exc f (front ++ x :: back) = (front' ++ x :: back, some e) := by
  induction front generalizing front' with
  | nil =>
    have hf : front' = [] := by
      have := congrArg Prod.fst hfront
      simpa using this.symm
    subst hf
    simp [monitor_list_exc, hx]
  | cons y ys ih =>
    unfold monitor_list_exc at hfront
    match hy : f y with
    | .error e2 =>
      rw [hy] at hfront
      exact absurd (congrArg Prod.snd hfront) (by simp)
    | .ok y2 =>
      rw [hy] at hfront
      simp only at hfront
      have h1 : front' = y2 :: (monitor_list_exc f ys).1 := by
        have := congrArg Prod.fst hfront
        simpa using this.symm
      have h2 : (monitor_list_exc f ys).2 = none := by
        have := congrArg Prod.snd hfront
        simpa using this
      have h3 : monitor_list_exc f ys = ((monitor_list_exc f ys).1, none) := by
        rw [← h2]
      have hrec := ih (monitor_list_exc f ys).1 h3
      show monitor_list_exc f (y :: (ys ++ x :: back)) = _
      unfold monitor_list_exc
      rw [hy]
      simp only [hrec, h1]
      rfl

/-- C7 amended (failure propagation): when the evaluation of one OCO order
raises and every order before it evaluates normally, `update_market_price`
terminates with the exception: the orders after the raising one in the same
registry keep their previous state unevaluated, and the bracket, trailing
stop and iceberg registries are not scanned at all — the failure is caught
nowhere inside the engine (only websocket broadcasting has a guard). -/
theorem per_order_failure_propagates
    (eo : OCOOrder → Except String OCOOrder)
    (eb : BracketOrder → Except String BracketOrder)
    (et : TrailingStopOrder → Except String TrailingStopOrder)
    (ei : IcebergOrder → Except String IcebergOrder)
    (front back front' : List OCOOrder) (x : OCOOrder) (e : String)
    (lb : List BracketOrder) (lt : List TrailingStopOrder) (li : List IcebergOrder)
    (hfront : monitor_list_exc eo front = (front', none))
    (hx : eo x = .error e) :
    update_market_price_exc eo eb et ei
      { ocoList := front ++ x :: back, bracketList := lb,
        trailingList := lt, icebergList := li } =
      ({ ocoList := front' ++ x :: back, bracketList := lb,
         trailingList := lt, icebergList := li }, some e) := by
  unfold update_market_price_exc
  simp only [monitor_list_exc_mid eo front back front' x e hfront hx]

/-- Witness for `per_order_failure_propagates`: the raising order first, the
healthy order behind it, the bracket order in the next registry. -/
theorem per_order_failure_propagates_witness :
    update_market_price_exc c7Eval
      (fun b => .ok (monitor_bracket_order "BTCUSDT" 94 b))
      (fun t => .ok (monitor_trailing_stop_order "BTCUSDT" 94 t))
      (fun i => .ok (monitor_iceberg_order "BTCUSDT" 94 i))
      { ocoList := [] ++ c7BadOrder :: [c7GoodOrder],
        bracketList := [c7BracketOrder], trailingList := [], icebergList := [] } =
      ({ ocoList := [] ++ c7BadOrder :: [c7GoodOrder],
         bracketList := [c7BracketOrder], trailingList := [], icebergList := [] },
       some "evaluation failure") :=
  per_order_failure_propagates c7Eval
    (fun b => .ok (monitor_bracket_order "BTCUSDT" 94 b))
    (fun t => .ok (monitor_trailing_stop_order "BTCUSDT" 94 t))
    (fun i => .ok (monitor_iceberg_order "BTCUSDT" 94 i))
    [] [c7GoodOrder] [] c7BadOrder "evaluation failure"
    [c7BracketOrder] [] [] rfl rfl

end AiTrading
